import Mathlib

/-!
Shallow embedding of `bin/runtime-common/src/refund_relayer_extension.rs`
(the `RefundRelayerForMessagesFromParachain` signed extension of
parity-bridges-common).

The extension is generic over a runtime `R`, a bridged-GRANDPA instance,
a parachains instance, a messages instance, an injected obsolete-transaction
guard `BE`, the configured parachain id `PID`, the configured lane id `LID`
and an injected fee calculation `FEE`.  The embedding makes those generic
parameters explicit arguments: the guard becomes a function argument, the
fee calculation becomes a function argument, and the chain state read by the
pallets becomes an explicit `ChainState` record.  Reward registration
(`RelayersPallet::register_relayer_reward`) is modelled by returning the
list of registration calls that `post_dispatch` performs.
-/

/-- `AccountId` of the runtime (opaque to the extension). -/
abbrev AccountId := Nat

/-- Reward balance (`RelayersConfig::Reward`); only threaded through. -/
abbrev Balance := Nat

/-- `bp_messages::LaneId` (a 4-byte identifier; only compared for equality). -/
abbrev LaneId := Nat

/-- `bp_polkadot_core::parachains::ParaId` (a `u32`; only compared for equality). -/
abbrev ParaId := Nat

/-- `pallet_bridge_parachains::RelayBlockNumber` (a `u32`; only compared for equality). -/
abbrev RelayBlockNumber := Nat

/-- `pallet_bridge_parachains::RelayBlockHash` (opaque to the extension). -/
abbrev RelayBlockHash := Nat

/-- `bp_messages::MessageNonce` (a `u64`; only compared for equality). -/
abbrev MessageNonce := Nat

/-- Hash of a parachain head (opaque to the extension). -/
abbrev ParaHash := Nat

/-- `sp_runtime::DispatchError` (opaque to the extension). -/
abbrev DispatchError := Nat

/-- `sp_runtime::DispatchResult = Result<(), DispatchError>`. -/
abbrev DispatchResult := Except DispatchError Unit

/-- `frame_support::dispatch::DispatchInfo`; the extension never inspects it,
it is only handed to the injected fee calculation. -/
structure DispatchInfo where
  weight : Nat
deriving DecidableEq

/-- `frame_support::dispatch::PostDispatchInfo`; the extension never inspects
it, it is only handed to the injected fee calculation. -/
structure PostDispatchInfo where
  actual_weight : Option Nat
deriving DecidableEq

/-- `sp_runtime::transaction_validity::TransactionValidityError`, reduced to
the cases the extension's environment distinguishes: the
`InvalidTransaction::Stale` error produced by the obsolete-transaction guard,
and every other error. -/
inductive TransactionValidityError where
  | invalidStale : TransactionValidityError
  | otherError (code : Nat) : TransactionValidityError
deriving DecidableEq

/-- The closed call vocabulary that the extension's `is_sub_type` matching
distinguishes: `utility.batch_all`, `pallet_bridge_grandpa.submit_finality_proof`
(of which only `finality_target.number()` is read),
`pallet_bridge_parachains.submit_parachain_heads` (of which `at_relay_block.0`
and the `(ParaId, ParaHash)` list are read),
`pallet_bridge_messages.receive_messages_proof` (of which `proof.lane` is
read), and every call of any other pallet. -/
inductive Call where
  | utilityBatchAll (calls : List Call) : Call
  | grandpaSubmitFinalityProof (finalityTargetNumber : RelayBlockNumber) : Call
  | parachainsSubmitParachainHeads (atRelayBlockNumber : RelayBlockNumber)
      (atRelayBlockHash : RelayBlockHash) (parachains : List (ParaId × ParaHash)) : Call
  | messagesReceiveMessagesProof (proofLane : LaneId)
      (noncesStart noncesEnd : MessageNonce) : Call
  | otherCall (tag : Nat) : Call

/-- `ExpectedRelayChainState`: best known relay chain block number. -/
structure ExpectedRelayChainState where
  best_block_number : RelayBlockNumber
deriving DecidableEq

/-- `ExpectedParachainState`: at which relay block the parachain head has been
updated. -/
structure ExpectedParachainState where
  at_relay_block_number : RelayBlockNumber
deriving DecidableEq

/-- `MessagesState`: best delivered message nonce (pre-dispatch state of the
messages pallet, not an expected post-dispatch state). -/
structure MessagesState where
  best_nonce : MessageNonce
deriving DecidableEq

/-- `CallType`: type of the call that the extension recognizes. -/
inductive CallType where
  | AllFinalityAndDelivery (relay : ExpectedRelayChainState)
      (para : ExpectedParachainState) (messages : MessagesState) : CallType
  | ParachainFinalityAndDelivery (para : ExpectedParachainState)
      (messages : MessagesState) : CallType
  | Delivery (messages : MessagesState) : CallType
deriving DecidableEq

/-- `CallType::pre_dispatch_messages_state`: the pre-dispatch messages pallet
state carried by each variant. -/
def CallType.pre_dispatch_messages_state : CallType → MessagesState
  | .AllFinalityAndDelivery _ _ messagesState => messagesState
  | .ParachainFinalityAndDelivery _ messagesState => messagesState
  | .Delivery messagesState => messagesState

/-- `PreDispatchData`: data crafted in `pre_dispatch` and used at
`post_dispatch`. -/
structure PreDispatchData where
  relayer : AccountId
  call_type : CallType
deriving DecidableEq

/-- The chain state that the pallets the extension reads from expose:
`pallet_bridge_grandpa::best_finalized_number()`,
`pallet_bridge_parachains::best_parachain_info(para_id)` (reduced to its
`best_head_hash.at_relay_block_number` component, the only one the extension
reads), and `pallet_bridge_messages::inbound_lane_data(lane).last_delivered_nonce()`
(total: an untouched lane reports nonce `0`). -/
structure ChainState where
  bestFinalizedNumber : Option RelayBlockNumber
  bestParaHeadAtRelayBlockNumber : ParaId → Option RelayBlockNumber
  lastDeliveredNonce : LaneId → MessageNonce

/-- `relay_chain_state::<R, GI>()`: relay chain state we are interested in. -/
def relay_chain_state (st : ChainState) : Option ExpectedRelayChainState :=
  st.bestFinalizedNumber.map fun best_block_number => { best_block_number }

/-- `parachain_state::<R, PI, PID>()`: parachain state we are interested in. -/
def parachain_state (PID : ParaId) (st : ChainState) : Option ExpectedParachainState :=
  (st.bestParaHeadAtRelayBlockNumber PID).map fun at_relay_block_number =>
    { at_relay_block_number }

/-- `messages_state::<R, MI, LID>()`: messages state we are interested in. -/
def messages_state (LID : LaneId) (st : ChainState) : Option MessagesState :=
  some { best_nonce := st.lastDeliveredNonce LID }

/-- `extract_expected_relay_chain_state::<R, GI>`: matches
`GrandpaCall::submit_finality_proof` and reads `finality_target.number()`. -/
def extract_expected_relay_chain_state (call : Call) : Option ExpectedRelayChainState :=
  match call with
  | .grandpaSubmitFinalityProof finalityTargetNumber =>
      some { best_block_number := finalityTargetNumber }
  | _ => none

/-- `extract_expected_parachain_state::<R, GI, PI, PID>`: matches
`ParachainsCall::submit_parachain_heads`; fails unless the call names exactly
one parachain whose id is `PID`, otherwise reads `at_relay_block.0`. -/
def extract_expected_parachain_state (PID : ParaId) (call : Call) :
    Option ExpectedParachainState :=
  match call with
  | .parachainsSubmitParachainHeads atRelayBlockNumber _ parachains =>
      match parachains with
      | [(firstParaId, _)] =>
          if firstParaId ≠ PID then none
          else some { at_relay_block_number := atRelayBlockNumber }
      | _ => none
  | _ => none

/-- `extract_messages_state::<R, GI, MI, LID>`: matches
`MessagesCall::receive_messages_proof`; fails unless `proof.lane = LID`,
otherwise reads the live `inbound_lane_data(proof.lane).last_delivered_nonce()`. -/
def extract_messages_state (LID : LaneId) (st : ChainState) (call : Call) :
    Option MessagesState :=
  match call with
  | .messagesReceiveMessagesProof proofLane _ _ =>
      if LID ≠ proofLane then none
      else some { best_nonce := st.lastDeliveredNonce proofLane }
  | _ => none

/-- The `parse_call_type` closure inside `pre_dispatch`: a `batch_all` of
exactly three sub-calls is tried as `AllFinalityAndDelivery`, of exactly two
sub-calls as `ParachainFinalityAndDelivery`, any other `batch_all` is
unrecognized, and a non-batch call is tried as `Delivery`. -/
def parse_call_type (PID : ParaId) (LID : LaneId) (st : ChainState) (call : Call) :
    Option CallType :=
  match call with
  | .utilityBatchAll [c0, c1, c2] =>
      match extract_expected_relay_chain_state c0,
          extract_expected_parachain_state PID c1,
          extract_messages_state LID st c2 with
      | some relayState, some paraState, some messagesState =>
          some (.AllFinalityAndDelivery relayState paraState messagesState)
      | _, _, _ => none
  | .utilityBatchAll [c0, c1] =>
      match extract_expected_parachain_state PID c0,
          extract_messages_state LID st c1 with
      | some paraState, some messagesState =>
          some (.ParachainFinalityAndDelivery paraState messagesState)
      | _, _ => none
  | .utilityBatchAll _ => none
  | c => (extract_messages_state LID st c).map CallType.Delivery

/-- The injected obsolete-transaction guard `BE`, as used by `validate`:
`BE::default().pre_dispatch(who, nested_call, info, len)`. -/
abbrev Guard :=
  AccountId → Call → DispatchInfo → Nat → Except TransactionValidityError Unit

/-- The `for nested_call in calls { ... pre_dispatch(...)? }` loop of
`validate`: runs the guard on every nested call in order, propagating the
first error. -/
def checkNestedCalls (guard : Guard) (who : AccountId) (info : DispatchInfo)
    (len : Nat) : List Call → Except TransactionValidityError Unit
  | [] => .ok ()
  | c :: rest =>
      match guard who c info len with
      | .error e => .error e
      | .ok _ => checkNestedCalls guard who info len rest

/-- `SignedExtension::validate`: rejects batch transactions with obsolete
headers by applying the injected guard to every nested call of a
`utility.batch_all`; every other call is valid. -/
def validate (guard : Guard) (who : AccountId) (call : Call) (info : DispatchInfo)
    (len : Nat) : Except TransactionValidityError Unit :=
  match call with
  | .utilityBatchAll calls => checkNestedCalls guard who info len calls
  | _ => .ok ()

/-- `SignedExtension::pre_dispatch`: re-runs `validate`, then classifies the
call; a recognized call yields `some PreDispatchData`, an unrecognized one
yields `none` (not an error). -/
def pre_dispatch (guard : Guard) (PID : ParaId) (LID : LaneId) (st : ChainState)
    (who : AccountId) (call : Call) (info : DispatchInfo) (len : Nat) :
    Except TransactionValidityError (Option PreDispatchData) :=
  match validate guard who call info len with
  | .error e => .error e
  | .ok _ =>
      .ok ((parse_call_type PID LID st call).map fun call_type =>
        { relayer := who, call_type })

/-- The injected fee calculation `FEE`
(`TransactionFeeCalculation::compute_fee(info, post_info, len, tip)`). -/
abbrev FeeCalc := DispatchInfo → PostDispatchInfo → Nat → Balance → Balance

/-- One call to `RelayersPallet::register_relayer_reward(lane, relayer, reward)`. -/
structure RelayerReward where
  lane : LaneId
  relayer : AccountId
  reward : Balance
deriving DecidableEq

/-- `SignedExtension::post_dispatch`: returns the (always-`ok`) result
together with the list of reward registrations it performs.  No pre-dispatch
data or a failed dispatch registers nothing; an `AllFinalityAndDelivery`
call must find the relay chain tracker at its expected state; it and
`ParachainFinalityAndDelivery` must find the parachain tracker at the
expected state; every variant must find the live delivered nonce changed
from the captured pre-dispatch nonce; only then is the fee, computed with a
zero tip, registered for the relayer on lane `LID`. -/
def post_dispatch (PID : ParaId) (LID : LaneId) (FEE : FeeCalc) (st : ChainState)
    (pre : Option (Option PreDispatchData)) (info : DispatchInfo)
    (post_info : PostDispatchInfo) (len : Nat) (result : DispatchResult) :
    Except TransactionValidityError (List RelayerReward) :=
  match pre with
  | some (some preData) =>
      match result with
      | .error _ => .ok []
      | .ok _ =>
          let relayChainUpdated : Bool :=
            match preData.call_type with
            | .AllFinalityAndDelivery expectedRelayChainState _ _ =>
                decide (relay_chain_state st = some expectedRelayChainState)
            | _ => true
          let parachainUpdated : Bool :=
            match preData.call_type with
            | .AllFinalityAndDelivery _ expectedParachainState _ =>
                decide (parachain_state PID st = some expectedParachainState)
            | .ParachainFinalityAndDelivery expectedParachainState _ =>
                decide (parachain_state PID st = some expectedParachainState)
            | _ => true
          if !relayChainUpdated then .ok []
          else if !parachainUpdated then .ok []
          else if messages_state LID st =
              some preData.call_type.pre_dispatch_messages_state then .ok []
          else
            let tip : Balance := 0
            let reward := FEE info post_info len tip
            .ok [{ lane := LID, relayer := preData.relayer, reward }]
  | _ => .ok []

/-!
Spec-side definitions.  `classify_spec` is written from the specification's
description of the Call Classifier (§4.2), to be compared with
`parse_call_type`, which is translated from the source.  The `CallTypeShape`
projection keeps exactly the state-independent components of a `CallType`
(the variant tag and the expected relay-chain/parachain states claimed by the
call bytes) and drops the live-read `MessagesState`.
-/

/-- Spec §4.2: "sub-call 1 is a relay-chain finality submission". -/
def is_relay_chain_finality_submission : Call → Bool
  | .grandpaSubmitFinalityProof _ => true
  | _ => false

/-- Spec §4.2: "a parachain-head submission naming exactly one parachain
equal to `parachain_id`". -/
def is_parachain_head_submission_for (PID : ParaId) : Call → Bool
  | .parachainsSubmitParachainHeads _ _ parachains =>
      decide (parachains.map Prod.fst = [PID])
  | _ => false

/-- Spec §4.2: "a message-delivery submission on lane `lane_id`". -/
def is_message_delivery_on (LID : LaneId) : Call → Bool
  | .messagesReceiveMessagesProof proofLane _ _ => decide (proofLane = LID)
  | _ => false

/-- Spec §4.2: "`ExpectedRelayChainState` from sub-call 1's claimed finalized
header number" (defaulting to `0` on a non-matching call, guarded away by
`is_relay_chain_finality_submission`). -/
def claimed_relay_chain_state : Call → ExpectedRelayChainState
  | .grandpaSubmitFinalityProof finalityTargetNumber =>
      { best_block_number := finalityTargetNumber }
  | _ => { best_block_number := 0 }

/-- Spec §4.2: "`ExpectedParachainState` from sub-call 2's claimed relay-block
height" (defaulting to `0` on a non-matching call). -/
def claimed_parachain_state : Call → ExpectedParachainState
  | .parachainsSubmitParachainHeads atRelayBlockNumber _ _ =>
      { at_relay_block_number := atRelayBlockNumber }
  | _ => { at_relay_block_number := 0 }

/-- Spec §4.2: "`MessagesState` (pre-dispatch nonce, read live) from
sub-call 3's lane" (defaulting to `0` on a non-matching call). -/
def live_messages_state (st : ChainState) : Call → MessagesState
  | .messagesReceiveMessagesProof proofLane _ _ =>
      { best_nonce := st.lastDeliveredNonce proofLane }
  | _ => { best_nonce := 0 }

/-- The Call Classifier algorithm exactly as the specification words it
(§4.2 steps 1-4): a batch-all of exactly three matching sub-calls is
`AllFinalityAndDelivery`, of exactly two matching sub-calls is
`ParachainFinalityAndDelivery`, an unbatched message delivery on the lane is
`Delivery`, and any other shape is unrecognized. -/
def classify_spec (PID : ParaId) (LID : LaneId) (st : ChainState) (call : Call) :
    Option CallType :=
  match call with
  | .utilityBatchAll [s1, s2, s3] =>
      if is_relay_chain_finality_submission s1 ∧
          is_parachain_head_submission_for PID s2 ∧
          is_message_delivery_on LID s3 then
        some (.AllFinalityAndDelivery (claimed_relay_chain_state s1)
          (claimed_parachain_state s2) (live_messages_state st s3))
      else none
  | .utilityBatchAll [s1, s2] =>
      if is_parachain_head_submission_for PID s1 ∧
          is_message_delivery_on LID s2 then
        some (.ParachainFinalityAndDelivery (claimed_parachain_state s1)
          (live_messages_state st s2))
      else none
  | .utilityBatchAll _ => none
  | c =>
      if is_message_delivery_on LID c then
        some (.Delivery (live_messages_state st c))
      else none

/-- The state-independent part of a `CallType`: the variant tag and the
expected states extracted from the call bytes, without the live-read
`MessagesState`. -/
inductive CallTypeShape where
  | allFinalityAndDelivery (relay : ExpectedRelayChainState)
      (para : ExpectedParachainState) : CallTypeShape
  | parachainFinalityAndDelivery (para : ExpectedParachainState) : CallTypeShape
  | delivery : CallTypeShape
deriving DecidableEq

/-- Projection of a `CallType` onto its state-independent shape. -/
def CallType.shape : CallType → CallTypeShape
  | .AllFinalityAndDelivery relayState paraState _ =>
      .allFinalityAndDelivery relayState paraState
  | .ParachainFinalityAndDelivery paraState _ =>
      .parachainFinalityAndDelivery paraState
  | .Delivery _ => .delivery

/-- Whether a `CallType` is the `AllFinalityAndDelivery` variant. -/
def CallType.isAllFinalityAndDelivery : CallType → Bool
  | .AllFinalityAndDelivery _ _ _ => true
  | _ => false

/-!
Concrete values used to instantiate the theorems below, mirroring the
shape of the repository's own test environment (`initialize_environment`):
parachain id `1000`, relay-chain tracker at `200`, parachain head updated at
relay block `200`, and a chosen last-delivered nonce per lane.
-/

/-- A concrete `DispatchInfo`. -/
def infoW : DispatchInfo := { weight := 1000000 }

/-- A concrete `PostDispatchInfo`. -/
def postInfoW : PostDispatchInfo := { actual_weight := none }

/-- A concrete injected fee calculation. -/
def feeW : FeeCalc := fun info _ len tip => info.weight + len + tip

/-- A concrete chain state: relay tracker at `200`, parachain `1000` head at
relay block `200`, every lane's last delivered nonce equal to `nonce`. -/
def mkStateW (nonce : MessageNonce) : ChainState where
  bestFinalizedNumber := some 200
  bestParaHeadAtRelayBlockNumber := fun pid => if pid = 1000 then some 200 else none
  lastDeliveredNonce := fun _ => nonce

/-- A guard that accepts every call. -/
def guardOkW : Guard := fun _ _ _ _ => .ok ()

/-- A guard that rejects relay-chain finality submissions of headers at or
below height `100` as stale and accepts everything else. -/
def guardStaleW : Guard := fun _ c _ _ =>
  match c with
  | .grandpaSubmitFinalityProof n =>
      if n ≤ 100 then .error .invalidStale else .ok ()
  | _ => .ok ()

/-- On a successful dispatch with captured pre-dispatch data whose
relay-chain and parachain expectations hold, `post_dispatch` registers the
zero-tip fee exactly when the live delivered nonce differs from the captured
pre-dispatch nonce. -/
theorem post_dispatch_success_characterization
    (PID : ParaId) (LID : LaneId) (FEE : FeeCalc) (st : ChainState)
    (r : AccountId) (ct : CallType) (info : DispatchInfo)
    (post_info : PostDispatchInfo) (len : Nat)
    (hrelay : ∀ e p m, ct = .AllFinalityAndDelivery e p m →
      relay_chain_state st = some e)
    (hparaAll : ∀ e p m, ct = .AllFinalityAndDelivery e p m →
      parachain_state PID st = some p)
    (hparaPara : ∀ p m, ct = .ParachainFinalityAndDelivery p m →
      parachain_state PID st = some p) :
    post_dispatch PID LID FEE st (some (some ⟨r, ct⟩)) info post_info len (.ok ()) =
      if messages_state LID st = some ct.pre_dispatch_messages_state then .ok []
      else .ok [⟨LID, r, FEE info post_info len 0⟩] := by
  cases ct with
  | AllFinalityAndDelivery e p m =>
      simp [post_dispatch, hrelay e p m rfl, hparaAll e p m rfl,
        CallType.pre_dispatch_messages_state]
  | ParachainFinalityAndDelivery p m =>
      simp [post_dispatch, hparaPara p m rfl, CallType.pre_dispatch_messages_state]
  | Delivery m =>
      simp [post_dispatch, CallType.pre_dispatch_messages_state]

/-- Claim C1: for every transaction with captured `PreDispatchData` whose
execution succeeded and whose relay-chain, parachain and message-nonce
checks all pass, `post_dispatch` performs exactly one reward registration,
keyed by the signing relayer and the configured lane, and the registered
amount is the injected fee calculation evaluated at tip `0` (the declared
tip of the transaction never reaches `post_dispatch`, so the amount is
independent of it). -/
theorem post_dispatch_registers_fee_with_zero_tip_exactly_once
    (PID : ParaId) (LID : LaneId) (FEE : FeeCalc) (st : ChainState)
    (r : AccountId) (ct : CallType) (info : DispatchInfo)
    (post_info : PostDispatchInfo) (len : Nat)
    (hrelay : ∀ e p m, ct = .AllFinalityAndDelivery e p m →
      relay_chain_state st = some e)
    (hparaAll : ∀ e p m, ct = .AllFinalityAndDelivery e p m →
      parachain_state PID st = some p)
    (hparaPara : ∀ p m, ct = .ParachainFinalityAndDelivery p m →
      parachain_state PID st = some p)
    (hmsg : messages_state LID st ≠ some ct.pre_dispatch_messages_state) :
    post_dispatch PID LID FEE st (some (some ⟨r, ct⟩)) info post_info len (.ok ()) =
      .ok [⟨LID, r, FEE info post_info len 0⟩] := by
  rw [post_dispatch_success_characterization PID LID FEE st r ct info post_info len
    hrelay hparaAll hparaPara, if_neg hmsg]

/-- Witness for C1 at the repository's own test environment (200/200/150,
captured nonce 100): exactly one registration, for relayer 9 on lane 7, of
the zero-tip fee. -/
theorem post_dispatch_registers_fee_with_zero_tip_exactly_once_witness :
    post_dispatch 1000 7 feeW (mkStateW 150)
      (some (some ⟨9, .AllFinalityAndDelivery ⟨200⟩ ⟨200⟩ ⟨100⟩⟩))
      infoW postInfoW 1024 (.ok ()) =
      .ok [⟨7, 9, feeW infoW postInfoW 1024 0⟩] :=
  post_dispatch_registers_fee_with_zero_tip_exactly_once 1000 7 feeW (mkStateW 150)
    9 (.AllFinalityAndDelivery ⟨200⟩ ⟨200⟩ ⟨100⟩) infoW postInfoW 1024
    (fun _ _ _ h => by cases h; rfl)
    (fun _ _ _ h => by cases h; rfl)
    (fun _ _ h => CallType.noConfusion h)
    (by decide)

/-- Claim C4: without captured `PreDispatchData` (`none` or `some none`), or
when the dispatch result reports failure, `post_dispatch` returns success and
registers no reward, regardless of classification. -/
theorem post_dispatch_noop_without_data_or_on_failure
    (PID : ParaId) (LID : LaneId) (FEE : FeeCalc) (st : ChainState)
    (info : DispatchInfo) (post_info : PostDispatchInfo) (len : Nat)
    (res : DispatchResult) (e : DispatchError) (pd : PreDispatchData) :
    post_dispatch PID LID FEE st none info post_info len res = .ok [] ∧
    post_dispatch PID LID FEE st (some none) info post_info len res = .ok [] ∧
    post_dispatch PID LID FEE st (some (some pd)) info post_info len
      (.error e) = .ok [] :=
  ⟨rfl, rfl, rfl⟩

/-- Claim C5: on success, an `AllFinalityAndDelivery` transaction whose
re-read relay-chain tracker state differs from the captured expectation
registers no reward; and for the other two variants the relay-chain tracker
is never consulted (the outcome is unchanged under any relay tracker value). -/
theorem relay_chain_check_only_for_all_finality
    (PID : ParaId) (LID : LaneId) (FEE : FeeCalc) (st : ChainState)
    (r : AccountId) (e : ExpectedRelayChainState) (p : ExpectedParachainState)
    (m : MessagesState) (info : DispatchInfo) (post_info : PostDispatchInfo)
    (len : Nat) (ct : CallType) (x : Option RelayBlockNumber) :
    (relay_chain_state st ≠ some e →
      post_dispatch PID LID FEE st
        (some (some ⟨r, .AllFinalityAndDelivery e p m⟩)) info post_info len
        (.ok ()) = .ok []) ∧
    (ct.isAllFinalityAndDelivery = false →
      post_dispatch PID LID FEE { st with bestFinalizedNumber := x }
        (some (some ⟨r, ct⟩)) info post_info len (.ok ()) =
      post_dispatch PID LID FEE st (some (some ⟨r, ct⟩)) info post_info len
        (.ok ())) := by
  obtain ⟨sa, sb, sc⟩ := st
  constructor
  · intro hr
    simp [post_dispatch, hr]
  · intro hct
    cases ct with
    | AllFinalityAndDelivery e' p' m' =>
        simp [CallType.isAllFinalityAndDelivery] at hct
    | ParachainFinalityAndDelivery p' m' =>
        simp [post_dispatch, parachain_state, messages_state]
    | Delivery m' =>
        simp [post_dispatch, messages_state]

/-- Witness for C5: stale relay tracker (at 200, expected 300) forfeits the
reward, and a `Delivery` classification gives the same outcome whatever the
relay tracker holds. -/
theorem relay_chain_check_only_for_all_finality_witness :
    (post_dispatch 1000 7 feeW (mkStateW 150)
      (some (some ⟨9, .AllFinalityAndDelivery ⟨300⟩ ⟨200⟩ ⟨100⟩⟩))
      infoW postInfoW 1024 (.ok ()) = .ok []) ∧
    (post_dispatch 1000 7 feeW { mkStateW 150 with bestFinalizedNumber := some 999 }
      (some (some ⟨9, .Delivery ⟨100⟩⟩)) infoW postInfoW 1024 (.ok ()) =
    post_dispatch 1000 7 feeW (mkStateW 150)
      (some (some ⟨9, .Delivery ⟨100⟩⟩)) infoW postInfoW 1024 (.ok ())) :=
  ⟨(relay_chain_check_only_for_all_finality 1000 7 feeW (mkStateW 150) 9
      ⟨300⟩ ⟨200⟩ ⟨100⟩ infoW postInfoW 1024 (.Delivery ⟨100⟩)
      (some 999)).1 (by decide),
   (relay_chain_check_only_for_all_finality 1000 7 feeW (mkStateW 150) 9
      ⟨300⟩ ⟨200⟩ ⟨100⟩ infoW postInfoW 1024 (.Delivery ⟨100⟩)
      (some 999)).2 rfl⟩

/-- Claim C6: on success, an `AllFinalityAndDelivery` or
`ParachainFinalityAndDelivery` transaction whose re-read parachain tracker
state for the configured parachain differs from the captured expectation
registers no reward; and a `Delivery` transaction never consults the
parachain tracker (the outcome is unchanged under any parachain tracker
contents). -/
theorem parachain_check_only_for_finality_variants
    (PID : ParaId) (LID : LaneId) (FEE : FeeCalc) (st : ChainState)
    (r : AccountId) (e : ExpectedRelayChainState) (p : ExpectedParachainState)
    (m m2 m3 : MessagesState) (info : DispatchInfo)
    (post_info : PostDispatchInfo) (len : Nat)
    (f : ParaId → Option RelayBlockNumber) :
    (parachain_state PID st ≠ some p →
      post_dispatch PID LID FEE st
        (some (some ⟨r, .AllFinalityAndDelivery e p m⟩)) info post_info len
        (.ok ()) = .ok [] ∧
      post_dispatch PID LID FEE st
        (some (some ⟨r, .ParachainFinalityAndDelivery p m2⟩)) info post_info len
        (.ok ()) = .ok []) ∧
    post_dispatch PID LID FEE { st with bestParaHeadAtRelayBlockNumber := f }
      (some (some ⟨r, .Delivery m3⟩)) info post_info len (.ok ()) =
    post_dispatch PID LID FEE st (some (some ⟨r, .Delivery m3⟩)) info post_info
      len (.ok ()) := by
  obtain ⟨sa, sb, sc⟩ := st
  constructor
  · intro hp
    constructor
    · by_cases hr : relay_chain_state ⟨sa, sb, sc⟩ = some e
      · simp [post_dispatch, hr, hp]
      · simp [post_dispatch, hr]
    · simp [post_dispatch, hp]
  · simp [post_dispatch, messages_state]

/-- Witness for C6: a stale parachain tracker (head at 200, expected 300)
forfeits the reward for both finality variants, and a `Delivery`
classification gives the same outcome whatever the parachain tracker holds. -/
theorem parachain_check_only_for_finality_variants_witness :
    (post_dispatch 1000 7 feeW (mkStateW 150)
      (some (some ⟨9, .AllFinalityAndDelivery ⟨200⟩ ⟨300⟩ ⟨100⟩⟩))
      infoW postInfoW 1024 (.ok ()) = .ok [] ∧
    post_dispatch 1000 7 feeW (mkStateW 150)
      (some (some ⟨9, .ParachainFinalityAndDelivery ⟨300⟩ ⟨100⟩⟩))
      infoW postInfoW 1024 (.ok ()) = .ok []) ∧
    post_dispatch 1000 7 feeW
      { mkStateW 150 with bestParaHeadAtRelayBlockNumber := fun _ => some 999 }
      (some (some ⟨9, .Delivery ⟨100⟩⟩)) infoW postInfoW 1024 (.ok ()) =
    post_dispatch 1000 7 feeW (mkStateW 150)
      (some (some ⟨9, .Delivery ⟨100⟩⟩)) infoW postInfoW 1024 (.ok ()) :=
  ⟨(parachain_check_only_for_finality_variants 1000 7 feeW (mkStateW 150) 9
      ⟨200⟩ ⟨300⟩ ⟨100⟩ ⟨100⟩ ⟨100⟩ infoW postInfoW 1024
      (fun _ => some 999)).1 (by decide),
   (parachain_check_only_for_finality_variants 1000 7 feeW (mkStateW 150) 9
      ⟨200⟩ ⟨300⟩ ⟨100⟩ ⟨100⟩ ⟨100⟩ infoW postInfoW 1024
      (fun _ => some 999)).2⟩

/-- Claim C7: for every successfully executed classified transaction (all
three variants), if the live last-delivered nonce on the configured lane
after execution equals the captured pre-dispatch nonce, `post_dispatch`
terminates with no reward registered. -/
theorem unchanged_nonce_forfeits_reward
    (PID : ParaId) (LID : LaneId) (FEE : FeeCalc) (st : ChainState)
    (r : AccountId) (ct : CallType) (info : DispatchInfo)
    (post_info : PostDispatchInfo) (len : Nat)
    (hmsg : messages_state LID st = some ct.pre_dispatch_messages_state) :
    post_dispatch PID LID FEE st (some (some ⟨r, ct⟩)) info post_info len
      (.ok ()) = .ok [] := by
  cases ct with
  | AllFinalityAndDelivery e p m =>
      simp only [CallType.pre_dispatch_messages_state] at hmsg
      by_cases hr : relay_chain_state st = some e
      · by_cases hp : parachain_state PID st = some p
        · simp [post_dispatch, hr, hp, hmsg, CallType.pre_dispatch_messages_state]
        · simp [post_dispatch, hp]
      · simp [post_dispatch, hr]
  | ParachainFinalityAndDelivery p m =>
      simp only [CallType.pre_dispatch_messages_state] at hmsg
      by_cases hp : parachain_state PID st = some p
      · simp [post_dispatch, hp, hmsg, CallType.pre_dispatch_messages_state]
      · simp [post_dispatch, hp]
  | Delivery m =>
      simp only [CallType.pre_dispatch_messages_state] at hmsg
      simp [post_dispatch, hmsg, CallType.pre_dispatch_messages_state]

/-- Witness for C7 at the repository's test environment 200/200/100 with
captured nonce 100: no reward for any of the three classifications. -/
theorem unchanged_nonce_forfeits_reward_witness :
    post_dispatch 1000 7 feeW (mkStateW 100)
      (some (some ⟨9, .AllFinalityAndDelivery ⟨200⟩ ⟨200⟩ ⟨100⟩⟩))
      infoW postInfoW 1024 (.ok ()) = .ok [] :=
  unchanged_nonce_forfeits_reward 1000 7 feeW (mkStateW 100) 9
    (.AllFinalityAndDelivery ⟨200⟩ ⟨200⟩ ⟨100⟩) infoW postInfoW 1024 (by decide)

/-- Claim C10: the message-delivery eligibility test in `post_dispatch` is
plain inequality of the live and captured nonces, not a forward-progress
test: when the relay-chain and parachain checks pass, any difference
(including a strictly smaller live nonce) registers the reward, and only
exact equality forfeits it. -/
theorem delivery_eligibility_is_plain_inequality
    (PID : ParaId) (LID : LaneId) (FEE : FeeCalc) (st : ChainState)
    (r : AccountId) (ct : CallType) (info : DispatchInfo)
    (post_info : PostDispatchInfo) (len : Nat)
    (hrelay : ∀ e p m, ct = .AllFinalityAndDelivery e p m →
      relay_chain_state st = some e)
    (hparaAll : ∀ e p m, ct = .AllFinalityAndDelivery e p m →
      parachain_state PID st = some p)
    (hparaPara : ∀ p m, ct = .ParachainFinalityAndDelivery p m →
      parachain_state PID st = some p) :
    (messages_state LID st ≠ some ct.pre_dispatch_messages_state →
      post_dispatch PID LID FEE st (some (some ⟨r, ct⟩)) info post_info len
        (.ok ()) = .ok [⟨LID, r, FEE info post_info len 0⟩]) ∧
    (messages_state LID st = some ct.pre_dispatch_messages_state →
      post_dispatch PID LID FEE st (some (some ⟨r, ct⟩)) info post_info len
        (.ok ()) = .ok []) := by
  constructor
  · intro h
    rw [post_dispatch_success_characterization PID LID FEE st r ct info post_info
      len hrelay hparaAll hparaPara, if_neg h]
  · intro h
    rw [post_dispatch_success_characterization PID LID FEE st r ct info post_info
      len hrelay hparaAll hparaPara, if_pos h]

/-- Witness for C10: with captured nonce 100, a live nonce of 50 (strictly
smaller) still registers the reward, while a live nonce of exactly 100
forfeits it. -/
theorem delivery_eligibility_is_plain_inequality_witness :
    post_dispatch 1000 7 feeW (mkStateW 50)
      (some (some ⟨9, .AllFinalityAndDelivery ⟨200⟩ ⟨200⟩ ⟨100⟩⟩))
      infoW postInfoW 1024 (.ok ()) =
      .ok [⟨7, 9, feeW infoW postInfoW 1024 0⟩] ∧
    post_dispatch 1000 7 feeW (mkStateW 100)
      (some (some ⟨9, .AllFinalityAndDelivery ⟨200⟩ ⟨200⟩ ⟨100⟩⟩))
      infoW postInfoW 1024 (.ok ()) = .ok [] :=
  ⟨(delivery_eligibility_is_plain_inequality 1000 7 feeW (mkStateW 50) 9
      (.AllFinalityAndDelivery ⟨200⟩ ⟨200⟩ ⟨100⟩) infoW postInfoW 1024
      (fun _ _ _ h => by cases h; rfl)
      (fun _ _ _ h => by cases h; rfl)
      (fun _ _ h => CallType.noConfusion h)).1 (by decide),
   (delivery_eligibility_is_plain_inequality 1000 7 feeW (mkStateW 100) 9
      (.AllFinalityAndDelivery ⟨200⟩ ⟨200⟩ ⟨100⟩) infoW postInfoW 1024
      (fun _ _ _ h => by cases h; rfl)
      (fun _ _ _ h => by cases h; rfl)
      (fun _ _ h => CallType.noConfusion h)).2 (by decide)⟩

/-- If the guard answers only `ok` or `Invalid-Stale` on the nested calls and
rejects at least one of them, the nested-call loop of `validate` returns
`Invalid-Stale`. -/
theorem checkNestedCalls_stale (guard : Guard) (who : AccountId)
    (info : DispatchInfo) (len : Nat) (calls : List Call)
    (hall : ∀ c ∈ calls, guard who c info len = .ok () ∨
      guard who c info len = .error .invalidStale)
    (hex : ∃ c ∈ calls, guard who c info len = .error .invalidStale) :
    checkNestedCalls guard who info len calls = .error .invalidStale := by
  induction calls with
  | nil => obtain ⟨c, hc, _⟩ := hex; cases hc
  | cons c rest ih =>
      rcases hall c (List.mem_cons_self c rest) with hok | herr
      · obtain ⟨d, hd, hderr⟩ := hex
        rcases List.mem_cons.mp hd with rfl | hdrest
        · rw [hok] at hderr; cases hderr
        · rw [checkNestedCalls, hok]
          exact ih (fun x hx => hall x (List.mem_cons_of_mem c hx))
            ⟨d, hdrest, hderr⟩
      · rw [checkNestedCalls, herr]

/-- Claim C3: for a batch-all call, `validate` applies the injected
obsolete-transaction guard to each nested sub-call; if any nested sub-call
fails the guard with the staleness error, both `validate` and `pre_dispatch`
reject the whole transaction with that error, so no `PreDispatchData` is
ever captured. -/
theorem batch_all_stale_subcall_rejects_whole_transaction
    (guard : Guard) (PID : ParaId) (LID : LaneId) (st : ChainState)
    (who : AccountId) (info : DispatchInfo) (len : Nat) (calls : List Call)
    (hall : ∀ c ∈ calls, guard who c info len = .ok () ∨
      guard who c info len = .error .invalidStale)
    (hex : ∃ c ∈ calls, guard who c info len = .error .invalidStale) :
    validate guard who (.utilityBatchAll calls) info len =
      .error .invalidStale ∧
    pre_dispatch guard PID LID st who (.utilityBatchAll calls) info len =
      .error .invalidStale := by
  have hv : validate guard who (.utilityBatchAll calls) info len =
      .error .invalidStale :=
    checkNestedCalls_stale guard who info len calls hall hex
  exact ⟨hv, by rw [pre_dispatch, hv]⟩

/-- Witness for C3: an all-finality-shaped batch whose relay-header sub-call
is stale (height 100 against a guard rejecting heights at or below 100) is
rejected whole by both hooks. -/
theorem batch_all_stale_subcall_rejects_whole_transaction_witness :
    validate guardStaleW 0
      (.utilityBatchAll [.grandpaSubmitFinalityProof 100,
        .parachainsSubmitParachainHeads 200 0 [(1000, 1)],
        .messagesReceiveMessagesProof 7 200 200]) infoW 0 =
      .error .invalidStale ∧
    pre_dispatch guardStaleW 1000 7 (mkStateW 100) 0
      (.utilityBatchAll [.grandpaSubmitFinalityProof 100,
        .parachainsSubmitParachainHeads 200 0 [(1000, 1)],
        .messagesReceiveMessagesProof 7 200 200]) infoW 0 =
      .error .invalidStale :=
  batch_all_stale_subcall_rejects_whole_transaction guardStaleW 1000 7
    (mkStateW 100) 0 infoW 0
    [.grandpaSubmitFinalityProof 100,
      .parachainsSubmitParachainHeads 200 0 [(1000, 1)],
      .messagesReceiveMessagesProof 7 200 200]
    (by
      intro c hc
      simp only [List.mem_cons, List.not_mem_nil, or_false] at hc
      rcases hc with rfl | rfl | rfl
      · exact Or.inr rfl
      · exact Or.inl rfl
      · exact Or.inl rfl)
    ⟨.grandpaSubmitFinalityProof 100, by simp, rfl⟩

/-- Claim C9: a parachain-head submission naming more than one parachain
never matches the classifier, even if the first named parachain is the
configured one (a two-sub-call batch carrying it yields no tracked data from
`pre_dispatch`); likewise a single-parachain submission for a different
parachain id never matches. -/
theorem multi_parachain_submission_never_classifies
    (guard : Guard) (PID : ParaId) (LID : LaneId) (st : ChainState)
    (who : AccountId) (info : DispatchInfo) (len : Nat)
    (atn : RelayBlockNumber) (ath : RelayBlockHash)
    (parachains : List (ParaId × ParaHash)) (p : ParaId) (hsh : ParaHash)
    (d : Call) :
    (parachains.length ≠ 1 →
      extract_expected_parachain_state PID
        (.parachainsSubmitParachainHeads atn ath parachains) = none) ∧
    (p ≠ PID →
      extract_expected_parachain_state PID
        (.parachainsSubmitParachainHeads atn ath [(p, hsh)]) = none) ∧
    (parachains.length ≠ 1 →
      validate guard who
        (.utilityBatchAll [.parachainsSubmitParachainHeads atn ath parachains, d])
        info len = .ok () →
      pre_dispatch guard PID LID st who
        (.utilityBatchAll [.parachainsSubmitParachainHeads atn ath parachains, d])
        info len = .ok none) := by
  have hext : parachains.length ≠ 1 →
      extract_expected_parachain_state PID
        (.parachainsSubmitParachainHeads atn ath parachains) = none := by
    intro hlen
    match parachains, hlen with
    | [], _ => rfl
    | [(q, h)], hlen => exact absurd rfl hlen
    | (a :: b :: t), _ => rfl
  refine ⟨hext, ?_, ?_⟩
  · intro hp
    simp [extract_expected_parachain_state, hp]
  · intro hlen hval
    rw [pre_dispatch, hval, parse_call_type, hext hlen]
    cases extract_messages_state LID st d <;> rfl

/-- Witness for C9: a two-parachain submission whose first entry is the
configured parachain 1000 fails extraction and classifies to nothing, and a
lone submission for parachain 999 fails extraction. -/
theorem multi_parachain_submission_never_classifies_witness :
    extract_expected_parachain_state 1000
      (.parachainsSubmitParachainHeads 100 0 [(1000, 1), (1001, 1)]) = none ∧
    extract_expected_parachain_state 1000
      (.parachainsSubmitParachainHeads 100 0 [(999, 1)]) = none ∧
    pre_dispatch guardOkW 1000 7 (mkStateW 100) 0
      (.utilityBatchAll [.parachainsSubmitParachainHeads 100 0
        [(1000, 1), (1001, 1)], .messagesReceiveMessagesProof 7 200 200])
      infoW 0 = .ok none :=
  ⟨(multi_parachain_submission_never_classifies guardOkW 1000 7 (mkStateW 100)
      0 infoW 0 100 0 [(1000, 1), (1001, 1)] 999 1
      (.messagesReceiveMessagesProof 7 200 200)).1 (by decide),
   (multi_parachain_submission_never_classifies guardOkW 1000 7 (mkStateW 100)
      0 infoW 0 100 0 [(1000, 1), (1001, 1)] 999 1
      (.messagesReceiveMessagesProof 7 200 200)).2.1 (by decide),
   (multi_parachain_submission_never_classifies guardOkW 1000 7 (mkStateW 100)
      0 infoW 0 100 0 [(1000, 1), (1001, 1)] 999 1
      (.messagesReceiveMessagesProof 7 200 200)).2.2 (by decide) rfl⟩

/-- The relay-chain extractor agrees with the spec-side matcher and claimed
state. -/
theorem extract_relay_spec (c : Call) :
    extract_expected_relay_chain_state c =
      if is_relay_chain_finality_submission c then
        some (claimed_relay_chain_state c)
      else none := by
  cases c <;>
    simp [extract_expected_relay_chain_state, is_relay_chain_finality_submission,
      claimed_relay_chain_state]

/-- The parachain extractor agrees with the spec-side matcher ("naming
exactly one parachain equal to the configured id") and claimed state. -/
theorem extract_para_spec (PID : ParaId) (c : Call) :
    extract_expected_parachain_state PID c =
      if is_parachain_head_submission_for PID c then
        some (claimed_parachain_state c)
      else none := by
  cases c with
  | parachainsSubmitParachainHeads n h ps =>
      rcases ps with _ | ⟨⟨q, hh⟩, _ | ⟨b, t⟩⟩
      · simp [extract_expected_parachain_state, is_parachain_head_submission_for]
      · by_cases hq : q = PID <;>
          simp [extract_expected_parachain_state, is_parachain_head_submission_for,
            claimed_parachain_state, hq]
      · simp [extract_expected_parachain_state, is_parachain_head_submission_for]
  | utilityBatchAll cs =>
      simp [extract_expected_parachain_state, is_parachain_head_submission_for]
  | grandpaSubmitFinalityProof n =>
      simp [extract_expected_parachain_state, is_parachain_head_submission_for]
  | messagesReceiveMessagesProof lane s e =>
      simp [extract_expected_parachain_state, is_parachain_head_submission_for]
  | otherCall t =>
      simp [extract_expected_parachain_state, is_parachain_head_submission_for]

/-- The messages extractor agrees with the spec-side matcher ("on lane
`lane_id`") and live-read state. -/
theorem extract_messages_spec (LID : LaneId) (st : ChainState) (c : Call) :
    extract_messages_state LID st c =
      if is_message_delivery_on LID c then some (live_messages_state st c)
      else none := by
  cases c with
  | messagesReceiveMessagesProof lane s e =>
      by_cases h : lane = LID
      · subst h
        simp [extract_messages_state, is_message_delivery_on, live_messages_state]
      · simp [extract_messages_state, is_message_delivery_on, live_messages_state,
          h, Ne.symm h]
  | utilityBatchAll cs =>
      simp [extract_messages_state, is_message_delivery_on]
  | grandpaSubmitFinalityProof n =>
      simp [extract_messages_state, is_message_delivery_on]
  | parachainsSubmitParachainHeads n hh ps =>
      simp [extract_messages_state, is_message_delivery_on]
  | otherCall t =>
      simp [extract_messages_state, is_message_delivery_on]

/-- The classifier translated from the source coincides with the classifier
written from the specification's words. -/
theorem parse_call_type_spec (PID : ParaId) (LID : LaneId) (st : ChainState)
    (call : Call) :
    parse_call_type PID LID st call = classify_spec PID LID st call := by
  cases call with
  | utilityBatchAll calls =>
      rcases calls with _ | ⟨a, _ | ⟨b, _ | ⟨c, _ | ⟨d, t⟩⟩⟩⟩
      · rfl
      · rfl
      · rw [parse_call_type, classify_spec, extract_para_spec,
          extract_messages_spec]
        by_cases h1 : is_parachain_head_submission_for PID a <;>
          by_cases h2 : is_message_delivery_on LID b <;>
          simp [h1, h2]
      · rw [parse_call_type, classify_spec, extract_relay_spec,
          extract_para_spec, extract_messages_spec]
        by_cases h1 : is_relay_chain_finality_submission a <;>
          by_cases h2 : is_parachain_head_submission_for PID b <;>
          by_cases h3 : is_message_delivery_on LID c <;>
          simp [h1, h2, h3]
      · rfl
  | grandpaSubmitFinalityProof n =>
      simp [parse_call_type, classify_spec, extract_messages_spec,
        is_message_delivery_on]
  | parachainsSubmitParachainHeads n hh ps =>
      simp [parse_call_type, classify_spec, extract_messages_spec,
        is_message_delivery_on]
  | messagesReceiveMessagesProof lane s e =>
      simp only [parse_call_type, classify_spec, extract_messages_spec]
      by_cases h : is_message_delivery_on LID (.messagesReceiveMessagesProof lane s e) <;>
        simp [h]
  | otherCall t =>
      simp [parse_call_type, classify_spec, extract_messages_spec,
        is_message_delivery_on]

/-- Claim C8: the classifier's case analysis is exactly the specification's:
a batch-all of exactly three sub-calls matching (relay-chain finality
submission, parachain-head submission for the configured parachain, message
delivery on the configured lane) produces `AllFinalityAndDelivery`; a
batch-all of exactly two matching sub-calls produces
`ParachainFinalityAndDelivery`; an unbatched message delivery on the
configured lane produces `Delivery`; every other shape is unrecognized. -/
theorem parse_call_type_matches_spec_classifier (PID : ParaId) (LID : LaneId)
    (st : ChainState) (call : Call) :
    parse_call_type PID LID st call = classify_spec PID LID st call :=
  parse_call_type_spec PID LID st call

/-- The spec-side classifier's shape (variant tag plus claimed expected
states) is independent of the chain state at classification time. -/
theorem classify_spec_shape_state_independent (PID : ParaId) (LID : LaneId)
    (st st' : ChainState) (call : Call) :
    (classify_spec PID LID st call).map CallType.shape =
    (classify_spec PID LID st' call).map CallType.shape := by
  cases call with
  | utilityBatchAll calls =>
      rcases calls with _ | ⟨a, _ | ⟨b, _ | ⟨c, _ | ⟨d, t⟩⟩⟩⟩
      · rfl
      · rfl
      · by_cases h1 : is_parachain_head_submission_for PID a <;>
          by_cases h2 : is_message_delivery_on LID b <;>
          simp [classify_spec, h1, h2, CallType.shape]
      · by_cases h1 : is_relay_chain_finality_submission a <;>
          by_cases h2 : is_parachain_head_submission_for PID b <;>
          by_cases h3 : is_message_delivery_on LID c <;>
          simp [classify_spec, h1, h2, h3, CallType.shape]
      · rfl
  | grandpaSubmitFinalityProof n =>
      simp [classify_spec, is_message_delivery_on]
  | parachainsSubmitParachainHeads n hh ps =>
      simp [classify_spec, is_message_delivery_on]
  | messagesReceiveMessagesProof lane s e =>
      by_cases h : is_message_delivery_on LID (.messagesReceiveMessagesProof lane s e) <;>
        simp [classify_spec, h, CallType.shape]
  | otherCall t =>
      simp [classify_spec, is_message_delivery_on]

/-- Counterexample to claim C2 as stated: the classifier's output is not a
pure function of the call bytes.  The same message-delivery call, classified
against two chain states that differ only in the lane's last delivered
nonce, yields two different `CallType` values (the embedded `MessagesState`
is read live). -/
theorem classification_not_state_independent_counterexample :
    parse_call_type 1000 7 (mkStateW 0) (.messagesReceiveMessagesProof 7 1 1) ≠
    parse_call_type 1000 7 (mkStateW 5) (.messagesReceiveMessagesProof 7 1 1) := by
  decide

/-- Claim C2, amended: classification of the call's shape is a pure function
of the call bytes — for every call and any two chain states, the classifier
produces the same variant (or is unrecognized in both), with the same
extracted `ExpectedRelayChainState` and `ExpectedParachainState`; only the
embedded `MessagesState` component is read live from the chain state. -/
theorem classification_shape_pure_function_of_call
    (PID : ParaId) (LID : LaneId) (st st' : ChainState) (call : Call) :
    (parse_call_type PID LID st call).map CallType.shape =
    (parse_call_type PID LID st' call).map CallType.shape := by
  rw [parse_call_type_spec PID LID st call, parse_call_type_spec PID LID st' call]
  exact classify_spec_shape_state_independent PID LID st st' call
